import Mathlib

/-!
Verification of the waygo-backend ride-hailing service.

This file shallowly embeds the ride lifecycle handlers (src/routes/rides.js,
src/models/Ride.js), the wallet ledger (src/models/Wallet.js, the wallet
routes file) and the fare / distance computations, and proves or refutes the
specification claims about them.

Conventions of the embedding:
* Mongoose documents become Lean structures; `ObjectId`s become `Nat`.
* JS numbers holding money, distances and ratings become `ℚ` (their uses in
  the source stay well within exact double range); the trigonometric
  distance computation is embedded over `ℝ`.
* Timestamps (`new Date()`) become a `now : Nat` parameter; a set timestamp
  field is `Option Nat`.
* A thrown exception becomes an error result; handlers return a result
  together with the (durable) state after the call.
* `await model.save()` is a durable write.  In `transferFunds` both wallet
  documents are loaded with the mongoose session attached, so every save of
  the call belongs to the transaction: the durable store is threaded
  explicitly, an injected failure point (`failAt`) models a save or commit
  that fails, and every failure path aborts back to the unchanged store
  while only the commit publishes the new state.
-/

/-! ## Ride data model (src/models/Ride.js) -/

abbrev UserId := Nat

/-- The `status` enum of the ride schema. -/
inductive RideStatus where
  | pending
  | accepted
  | inProgress
  | completed
  | cancelled
deriving DecidableEq, Repr

/-- The `payment.method` enum of the ride schema. -/
inductive PaymentMethod where
  | momo
  | orangeMoney
  | card
  | cash
  | wallet
deriving DecidableEq, Repr

/-- The `payment.status` enum of the ride schema. -/
inductive PaymentStatus where
  | pending
  | completed
  | failed
deriving DecidableEq, Repr

/-- A `driverRating` / `riderRating` sub-record of the ride schema. -/
structure RatingRec where
  rating : ℚ
  comment : String
  createdAt : Nat
deriving DecidableEq, Repr

/-- The `fare` sub-document of the ride schema. -/
structure Fare where
  base : ℚ
  distance : ℚ
  time : ℚ
  total : ℚ
  currency : String := "XAF"
deriving DecidableEq, Repr

/-- A ride document (src/models/Ride.js).  Fields not touched by any
verified operation (pickup / destination addresses and points, vehicle type,
notes, the legacy rating field) are omitted. -/
structure Ride where
  rider : UserId
  driver : Option UserId := none
  status : RideStatus := .pending
  distance : ℚ := 0
  duration : ℤ := 0
  fare : Fare := { base := 0, distance := 0, time := 0, total := 0 }
  paymentMethod : PaymentMethod := .cash
  paymentStatus : PaymentStatus := .pending
  requestedAt : Nat := 0
  acceptedAt : Option Nat := none
  startedAt : Option Nat := none
  completedAt : Option Nat := none
  cancelledAt : Option Nat := none
  cancelledBy : Option String := none
  cancellationReason : Option String := none
  driverRating : Option RatingRec := none
  riderRating : Option RatingRec := none
deriving DecidableEq, Repr

/-- `rideSchema.methods.updateStatus(newStatus, userId)`: unconditionally
overwrites `status`, sets the timestamp matching the new status, and on
cancellation records `cancelledBy := userId`.  The source performs no check
of the previous status; the subsequent `this.save()` is the caller's durable
write. -/
def Ride.updateStatus (r : Ride) (newStatus : RideStatus) (userId : Option String) (now : Nat) : Ride :=
  match newStatus with
  | .accepted => { r with status := newStatus, acceptedAt := some now }
  | .inProgress => { r with status := newStatus, startedAt := some now }
  | .completed => { r with status := newStatus, completedAt := some now }
  | .cancelled => { r with status := newStatus, cancelledAt := some now, cancelledBy := userId }
  | .pending => { r with status := newStatus }

/-! ## Ride handler state

The handlers in src/routes/rides.js operate on one ride document (fetched by
`Ride.findById`) and on the availability flags of driver `User` documents.
`ride = none` models a missing document (404 path). -/

structure RideState where
  ride : Option Ride
  avail : UserId → Bool

/-- A durable write of a driver's `isAvailable` flag (`driver.save()`). -/
def setAvail (s : RideState) (u : UserId) (b : Bool) : RideState :=
  { s with avail := fun v => if v = u then b else s.avail v }

/-- A durable write of the ride document (`ride.save()`). -/
def setRide (s : RideState) (r : Ride) : RideState :=
  { s with ride := some r }

/-! ## acceptRide (src/routes/rides.js lines 508-614)

The handler is read-modify-write: it loads the ride, checks
`ride.status !== 'pending'`, checks the calling driver's `isAvailable`,
then assigns `ride.driver` and calls `updateStatus('accepted', ...)`,
which saves unconditionally.  To reason about racing calls the handler is
split at its await points into the read-and-check phase and the write
phase; `acceptRide` runs both back to back (a serialized call). -/

inductive AcceptResult where
  | success
  | rideNotFound
  | rideNotAvailable
  | driverNotAvailable
deriving DecidableEq, Repr

/-- The read-and-check phase of `acceptRide`: `Ride.findById`, the
`status !== 'pending'` guard and the `driver.isAvailable` guard.  On
success, returns the in-memory copy of the ride the handler works on. -/
def acceptCheck (s : RideState) (driverId : UserId) : AcceptResult ⊕ Ride :=
  match s.ride with
  | none => .inl .rideNotFound
  | some ride =>
    if ride.status ≠ .pending then .inl .rideNotAvailable
    else if ¬ s.avail driverId then .inl .driverNotAvailable
    else .inr ride

/-- The write phase of `acceptRide`: `ride.driver = req.user.id`,
`ride.updateStatus('accepted', req.user.id)` (which saves the local copy,
overwriting the stored document), then `driver.isAvailable = false` and
`driver.save()`. -/
def acceptWrite (s : RideState) (localRide : Ride) (driverId : UserId) (now : Nat) : RideState :=
  let written := ({ localRide with driver := some driverId }).updateStatus .accepted (some (toString driverId)) now
  setAvail (setRide s written) driverId false

/-- One serialized `acceptRide` call: read-and-check then write, with no
other call interleaved. -/
def acceptRide (s : RideState) (driverId : UserId) (now : Nat) : AcceptResult × RideState :=
  match acceptCheck s driverId with
  | .inl e => (e, s)
  | .inr localRide => (.success, acceptWrite s localRide driverId now)

/-- Two racing `acceptRide` calls under the interleaving in which both
read-and-check phases run before either write phase (both `findById` reads
complete before either `save`).  Each write phase uses its own in-memory
copy of the ride, so the later save overwrites the earlier one. -/
def acceptRace (s : RideState) (d1 d2 : UserId) (now : Nat) :
    (AcceptResult × AcceptResult) × RideState :=
  match acceptCheck s d1, acceptCheck s d2 with
  | .inr r1, .inr r2 => ((.success, .success), acceptWrite (acceptWrite s r1 d1 now) r2 d2 now)
  | .inr r1, .inl e2 => ((.success, e2), acceptWrite s r1 d1 now)
  | .inl e1, .inr r2 => ((e1, .success), acceptWrite s r2 d2 now)
  | .inl e1, .inl e2 => ((e1, e2), s)

/-! ## startRide / completeRide (src/routes/rides.js lines 659-708, 713-864)

Both handlers evaluate `ride.driver.toString()` before the status guard;
when no driver is assigned this dereference of an absent field throws a
TypeError which the catch block surfaces as a generic 500
(`internalError`), never reaching the typed status-conflict response. -/

inductive StartResult where
  | success
  | rideNotFound
  | internalError
  | notAuthorized
  | wrongStatus
deriving DecidableEq, Repr

def startRide (s : RideState) (callerId : UserId) (now : Nat) : StartResult × RideState :=
  match s.ride with
  | none => (.rideNotFound, s)
  | some ride =>
    match ride.driver with
    | none => (.internalError, s)
    | some d =>
      if d ≠ callerId then (.notAuthorized, s)
      else if ride.status ≠ .accepted then (.wrongStatus, s)
      else (.success, setRide s (ride.updateStatus .inProgress (some (toString callerId)) now))

/-- `completeRide`.  `walletTransferOk` stands for the outcome of the
`Wallet.transferFunds` call made when the payment method is `wallet`: the
source catches a transfer failure, marks the payment `failed` and still
completes the ride.  The driver is marked available again in both cases. -/
def completeRide (s : RideState) (callerId : UserId) (walletTransferOk : Bool) (now : Nat) :
    StartResult × RideState :=
  match s.ride with
  | none => (.rideNotFound, s)
  | some ride =>
    match ride.driver with
    | none => (.internalError, s)
    | some d =>
      if d ≠ callerId then (.notAuthorized, s)
      else if ride.status ≠ .inProgress then (.wrongStatus, s)
      else
        let r1 := ride.updateStatus .completed (some (toString callerId)) now
        let payOk := ride.paymentMethod ≠ .wallet ∨ walletTransferOk
        let r2 := { r1 with paymentStatus := if payOk then .completed else .failed }
        setAvail (setRide s r2) callerId true |> fun s2 => (.success, s2)

/-! ## cancelRide (src/routes/rides.js lines 869-941)

`cancelledBy` is `'rider'` when the caller is the rider, else `'driver'`.
The driver is made available again only inside the `if (isDriver)` branch:
a rider-initiated cancellation leaves the assigned driver's availability
untouched. -/

inductive CancelResult where
  | success
  | rideNotFound
  | notAuthorized
  | cannotCancel
deriving DecidableEq, Repr

def cancelRide (s : RideState) (callerId : UserId) (reason : Option String) (now : Nat) :
    CancelResult × RideState :=
  match s.ride with
  | none => (.rideNotFound, s)
  | some ride =>
    let isRider := ride.rider = callerId
    let isDriver := ride.driver = some callerId
    if ¬ (isRider ∨ isDriver) then (.notAuthorized, s)
    else if ride.status = .completed ∨ ride.status = .cancelled then (.cannotCancel, s)
    else
      let cancelledBy := if isRider then "rider" else "driver"
      let r1 := ride.updateStatus .cancelled (some cancelledBy) now
      let r2 := { r1 with cancellationReason := reason }
      let s1 := setRide s r2
      let s2 := if isDriver then setAvail s1 callerId true else s1
      (.success, s2)

/-! ## rateRide (src/routes/rides.js lines 1342-1464)

The handler validates the rating range and the rater role, requires
`status === 'completed'` and the matching party, then assigns
`ride.driverRating` / `ride.riderRating` unconditionally — with no check
that a rating already exists.  (The follow-on recomputation of the rated
user's average rating touches only the `User` document and is omitted.) -/

inductive RateResult where
  | success
  | invalidRating
  | invalidRater
  | rideNotFound
  | notCompleted
  | notAuthorized
deriving DecidableEq, Repr

def rateRide (s : RideState) (callerId : UserId) (rating : ℚ) (comment : Option String)
    (ratedBy : String) (now : Nat) : RateResult × RideState :=
  if rating < 1 ∨ rating > 5 then (.invalidRating, s)
  else if ¬ (ratedBy = "driver" ∨ ratedBy = "rider") then (.invalidRater, s)
  else
    match s.ride with
    | none => (.rideNotFound, s)
    | some ride =>
      if ride.status ≠ .completed then (.notCompleted, s)
      else if ratedBy = "driver" ∧ ride.driver ≠ some callerId then (.notAuthorized, s)
      else if ratedBy = "rider" ∧ ride.rider ≠ callerId then (.notAuthorized, s)
      else
        let ratingData : RatingRec := { rating := rating, comment := comment.getD "", createdAt := now }
        let r1 :=
          if ratedBy = "driver" then { ride with driverRating := some ratingData }
          else { ride with riderRating := some ratingData }
        (.success, setRide s r1)

/-! ## requestRide cleanup (src/routes/rides.js lines 52-80)

Before checking for an active ride, `requestRide` runs `Ride.deleteMany` on
the requesting rider's `pending` rides older than five minutes
(`requestedAt < Date.now() - 5*60*1000`), then rejects when an active ride
remains, else creates the new pending ride.  This is modelled at the
collection level; `RideRow` projects a stored ride document onto the fields
this step reads. -/

structure RideRow where
  id : Nat
  rider : UserId
  status : RideStatus
  requestedAt : Nat
deriving DecidableEq, Repr

/-- The `Ride.deleteMany` filter and its application. -/
def oldPendingOf (riderId : UserId) (now : Nat) (r : RideRow) : Bool :=
  r.rider = riderId ∧ r.status = .pending ∧ r.requestedAt < now - 5 * 60 * 1000

def cleanupOldPending (rides : List RideRow) (riderId : UserId) (now : Nat) : List RideRow :=
  rides.filter (fun r => ! oldPendingOf riderId now r)

inductive RequestResult where
  | created (id : Nat)
  | activeRideExists
deriving DecidableEq, Repr

/-- The record-level effect of `requestRide` on the ride collection:
cleanup, active-ride check, creation. -/
def requestRideCore (rides : List RideRow) (riderId : UserId) (now : Nat) (newId : Nat) :
    RequestResult × List RideRow :=
  let cleaned := cleanupOldPending rides riderId now
  if cleaned.any (fun r => r.rider = riderId ∧
      (r.status = .pending ∨ r.status = .accepted ∨ r.status = .inProgress)) then
    (.activeRideExists, cleaned)
  else
    (.created newId, cleaned ++ [{ id := newId, rider := riderId, status := .pending, requestedAt := now }])

/-! ## Wallet data model (src/models/Wallet.js) -/

/-- The transaction `type` enum.  `ride_earning` appears only in the
`/pay-ride` route (it is not in the schema's enum); it is included so that
route's records can be expressed. -/
inductive TxType where
  | deposit
  | withdrawal
  | transfer
  | ride_payment
  | refund
  | ride_earning
deriving DecidableEq, Repr

inductive TxStatus where
  | pending
  | completed
  | failed
  | cancelled
deriving DecidableEq, Repr

/-- The free-form `metadata` bag of a transaction; every field the routes
write is represented, absent fields as `none`. -/
structure TxMetadata where
  rideId : Option Nat := none
  fromUserId : Option UserId := none
  toUserId : Option UserId := none
  paymentMethod : Option String := none
  phoneNumber : Option String := none
  externalReference : Option String := none
  campayReference : Option String := none
  campayStatus : Option String := none
  testMode : Bool := false
deriving DecidableEq, Repr

structure Tx where
  type : TxType
  amount : ℚ
  currency : String := "FCFA"
  status : TxStatus := .pending
  description : String := ""
  reference : Option String := none
  metadata : TxMetadata := {}
  createdAt : Nat := 0
  completedAt : Option Nat := none
deriving DecidableEq, Repr

structure Wallet where
  userId : UserId
  userRole : String
  balance : ℚ := 0
  currency : String := "FCFA"
  isActive : Bool := true
  transactions : List Tx := []
deriving DecidableEq, Repr

/-- `WalletSchema.methods.updateBalance(amount, type)`: credits the balance
for `deposit`/`transfer`/`refund`, debits it for
`withdrawal`/`ride_payment` after a sufficiency check that otherwise throws
`Insufficient balance`, and leaves it untouched for any other type.  The
`this.save()` the source ends with is the caller's durable write. -/
def Wallet.updateBalance (w : Wallet) (amount : ℚ) (t : TxType) : Except String Wallet :=
  if t = .deposit ∨ t = .transfer ∨ t = .refund then
    .ok { w with balance := w.balance + amount }
  else if t = .withdrawal ∨ t = .ride_payment then
    if w.balance ≥ amount then .ok { w with balance := w.balance - amount }
    else .error "Insufficient balance"
  else .ok w

/-- `WalletSchema.methods.canWithdraw(amount)`. -/
def Wallet.canWithdraw (w : Wallet) (amount : ℚ) : Bool :=
  decide (w.balance ≥ amount) && w.isActive

/-! ## transferFunds (src/models/Wallet.js lines 172-239)

The static opens a mongoose session and loads both wallets through
`findOne({...}).session(session)`, so each document carries the session and
every later `save()` on it — including the plain `this.save()` inside
`updateBalance` — writes inside the transaction.  It pre-checks
`canWithdraw`, debits the source (`ride_payment`), credits the destination
(`transfer`), pushes one completed `transfer` record to each wallet, saves
both documents and commits; any thrown error instead aborts the session,
which discards every write of the call.  `Bank` is the durable store;
`failAt = some k` injects a storage failure at the k-th write of the call
(1-2: the saves inside the two `updateBalance` calls, 3-4: the final
document saves, 5: the commit).  Because all the writes are sessioned,
every failure path aborts to the unchanged store, and only the commit
publishes the new state. -/

def Bank := UserId → Option Wallet

def setWallet (bank : Bank) (u : UserId) (w : Wallet) : Bank :=
  fun v => if v = u then some w else bank v

/-- The `fromTransaction` literal of `transferFunds` (sender side). -/
def transferFromTx (toWallet : Wallet) (toUserId : UserId) (amount : ℚ)
    (rideId : Option Nat) (now : Nat) : Tx :=
  { type := .transfer, amount := amount, status := .completed,
    description := "Transfer to " ++ toWallet.userRole,
    metadata := { toUserId := some toUserId, rideId := rideId },
    completedAt := some now }

/-- The `toTransaction` literal of `transferFunds` (receiver side). -/
def transferToTx (fromWallet : Wallet) (fromUserId : UserId) (amount : ℚ)
    (rideId : Option Nat) (now : Nat) : Tx :=
  { type := .transfer, amount := amount, status := .completed,
    description := "Payment from " ++ fromWallet.userRole,
    metadata := { fromUserId := some fromUserId, rideId := rideId },
    completedAt := some now }

def transferFunds (bank : Bank) (fromUserId toUserId : UserId) (amount : ℚ)
    (rideId : Option Nat) (now : Nat) (failAt : Option Nat) :
    Except String (ℚ × ℚ) × Bank :=
  match bank fromUserId, bank toUserId with
  | none, _ => (.error "One or both wallets not found", bank)
  | some _, none => (.error "One or both wallets not found", bank)
  | some fromWallet, some toWallet =>
    if ¬ fromWallet.canWithdraw amount then
      (.error "Insufficient balance or wallet inactive", bank)
    else
      match fromWallet.updateBalance amount .ride_payment with
      | .error e => (.error e, bank)
      | .ok fw1 =>
        if failAt = some 1 then (.error "save failed", bank)
        else
          match toWallet.updateBalance amount .transfer with
          | .error e => (.error e, bank)
          | .ok tw1 =>
            if failAt = some 2 then (.error "save failed", bank)
            else
              let fw2 := { fw1 with transactions :=
                fw1.transactions ++ [transferFromTx toWallet toUserId amount rideId now] }
              let tw2 := { tw1 with transactions :=
                tw1.transactions ++ [transferToTx fromWallet fromUserId amount rideId now] }
              if failAt = some 3 ∨ failAt = some 4 ∨ failAt = some 5 then
                (.error "save failed", bank)
              else
                (.ok (fw2.balance, tw2.balance),
                 setWallet (setWallet bank fromUserId fw2) toUserId tw2)

/-- The all-or-nothing contract of claim C2, transcribed from the
specification, to be proved of `transferFunds`: a call either fails leaving
the durable store untouched (in particular on insufficient balance), or
moves the amount from the source balance to the destination balance and
appends exactly one completed `transfer` record to each of the two wallets,
leaving every other wallet unchanged. -/
def transferAllOrNothingSpec (bank : Bank) (fromUserId toUserId : UserId) (amount : ℚ)
    (rideId : Option Nat) (now : Nat) (failAt : Option Nat) (fw tw : Wallet) : Prop :=
  (∀ e, (transferFunds bank fromUserId toUserId amount rideId now failAt).1 = .error e →
    (transferFunds bank fromUserId toUserId amount rideId now failAt).2 = bank) ∧
  (∀ p, (transferFunds bank fromUserId toUserId amount rideId now failAt).1 = .ok p →
    p = (fw.balance - amount, tw.balance + amount) ∧
    (∃ t1 : Tx, t1.type = .transfer ∧ t1.status = .completed ∧ t1.amount = amount ∧
      (transferFunds bank fromUserId toUserId amount rideId now failAt).2 fromUserId =
        some { fw with balance := fw.balance - amount, transactions := fw.transactions ++ [t1] }) ∧
    (∃ t2 : Tx, t2.type = .transfer ∧ t2.status = .completed ∧ t2.amount = amount ∧
      (transferFunds bank fromUserId toUserId amount rideId now failAt).2 toUserId =
        some { tw with balance := tw.balance + amount, transactions := tw.transactions ++ [t2] }) ∧
    (∀ u : UserId, u ≠ fromUserId → u ≠ toUserId →
      (transferFunds bank fromUserId toUserId amount rideId now failAt).2 u = bank u)) ∧
  (fw.canWithdraw amount = false →
    transferFunds bank fromUserId toUserId amount rideId now failAt =
      (.error "Insufficient balance or wallet inactive", bank))

/-! ## Deposit / withdraw initiation (wallet routes, POST /deposit and
POST /withdraw)

Both create a `pending` transaction first and save, then call the payment
gateway; on gateway failure they fall back to test mode, marking the
pending transaction completed and mutating the balance immediately.
`campayOk` is the gateway call's outcome. -/

def depositRequest (w : Wallet) (amount : ℚ) (paymentMethod phoneNumber : String)
    (externalReference : String) (campayOk : Bool) (now : Nat) : Except String Wallet :=
  if amount ≤ 0 then .error "Valid amount is required"
  else
    let transaction : Tx :=
      { type := .deposit, amount := amount, status := .pending,
        description := "Deposit via " ++ paymentMethod,
        metadata := { paymentMethod := some paymentMethod, phoneNumber := some phoneNumber,
                      externalReference := some externalReference },
        createdAt := now }
    let w1 := { w with transactions := w.transactions ++ [transaction] }
    if campayOk then .ok w1
    else
      let completed : Tx :=
        { transaction with
          status := .completed, completedAt := some now,
          metadata := { transaction.metadata with testMode := true } }
      .ok { w1 with transactions := w.transactions ++ [completed], balance := w1.balance + amount }

def withdrawRequest (w : Wallet) (amount : ℚ) (paymentMethod phoneNumber : String)
    (externalReference : String) (campayOk : Bool) (now : Nat) : Except String Wallet :=
  if amount ≤ 0 then .error "Valid amount is required"
  else if ¬ w.canWithdraw amount then .error "Insufficient balance or wallet inactive"
  else
    let transaction : Tx :=
      { type := .withdrawal, amount := amount, status := .pending,
        description := "Withdrawal to " ++ paymentMethod,
        metadata := { paymentMethod := some paymentMethod, phoneNumber := some phoneNumber,
                      externalReference := some externalReference },
        createdAt := now }
    let w1 := { w with transactions := w.transactions ++ [transaction] }
    if campayOk then .ok w1
    else
      let completed : Tx :=
        { transaction with
          status := .completed, completedAt := some now,
          metadata := { transaction.metadata with testMode := true } }
      .ok { w1 with transactions := w.transactions ++ [completed], balance := w1.balance - amount }

/-! ## Campay webhook (wallet routes, POST /campay-webhook)

The handler locates the transaction by `metadata.externalReference` and, on
a `SUCCESSFUL` webhook, marks it completed and re-applies the balance
change via `updateBalance` — with NO check of the transaction's current
status.  On `FAILED` it marks the transaction failed; any other status only
records `campayStatus`. -/

def txHasRef (ref : String) (t : Tx) : Bool :=
  t.metadata.externalReference = some ref

/-- `wallet.transactions.find(...)`: the first transaction carrying the
external reference. -/
def findTx (ref : String) : List Tx → Option Tx
  | [] => none
  | t :: ts => if txHasRef ref t then some t else findTx ref ts

/-- In-place mutation of the found transaction: rewrite the first
transaction carrying the external reference. -/
def setFirstTx (ref : String) (f : Tx → Tx) : List Tx → List Tx
  | [] => []
  | t :: ts => if txHasRef ref t then f t :: ts else t :: setFirstTx ref f ts

def campayWebhook (w : Wallet) (externalReference : String) (status : String)
    (amount : ℚ) (now : Nat) : Except String Wallet :=
  match findTx externalReference w.transactions with
  | none => .error "Transaction not found"
  | some tx =>
    if status = "SUCCESSFUL" then
      let completeIt : Tx → Tx := fun t =>
        { t with status := .completed, completedAt := some now,
                 metadata := { t.metadata with campayStatus := some status } }
      let w1 := { w with transactions := setFirstTx externalReference completeIt w.transactions }
      if tx.type = .deposit then w1.updateBalance amount .deposit
      else if tx.type = .withdrawal then w1.updateBalance amount .withdrawal
      else .ok w1
    else if status = "FAILED" then
      let failIt : Tx → Tx := fun t =>
        { t with status := .failed, metadata := { t.metadata with campayStatus := some status } }
      .ok { w with transactions := setFirstTx externalReference failIt w.transactions }
    else
      let noteIt : Tx → Tx := fun t =>
        { t with metadata := { t.metadata with campayStatus := some status } }
      .ok { w with transactions := setFirstTx externalReference noteIt w.transactions }

/-! ## The ledger invariant of the specification

The specification classifies completed `deposit` / transfer-in / `refund`
entries as credits and completed `withdrawal` / `ride_payment` entries as
debits, and asserts `balance` equals credits minus debits.  The following
definitions transcribe that classification (a transfer-in is a `transfer`
record carrying the sender in `metadata.fromUserId`, as written by
`transferFunds`); they follow the specification's words, to be compared
against the wallet operations above. -/

def txSpecCredit (t : Tx) : ℚ :=
  if t.status = .completed ∧
      (t.type = .deposit ∨ t.type = .refund ∨ (t.type = .transfer ∧ t.metadata.fromUserId.isSome)) then
    t.amount
  else 0

def txSpecDebit (t : Tx) : ℚ :=
  if t.status = .completed ∧ (t.type = .withdrawal ∨ t.type = .ride_payment) then t.amount else 0

/-- Sum of completed credit-type entries minus completed debit-type
entries, per the specification's classification. -/
def specLedgerBalance (w : Wallet) : ℚ :=
  (w.transactions.map txSpecCredit).sum - (w.transactions.map txSpecDebit).sum

/-! ## Fare computation (src/models/Ride.js calculateFare, and the inline
computation of requestRide, src/routes/rides.js lines 170-205) -/

def calculateFare (distance duration : ℚ) : Fare :=
  let baseFare : ℚ := 500
  let perKmRate : ℚ := 200
  let perMinuteRate : ℚ := 10
  let distanceFare := distance * perKmRate
  let timeFare := duration * perMinuteRate
  let totalFare := baseFare + distanceFare + timeFare
  { base := baseFare, distance := distanceFare, time := timeFare,
    total := totalFare, currency := "XAF" }

/-- `const duration = Math.ceil(distance * 3)` in requestRide. -/
def rideDuration (distance : ℚ) : ℤ :=
  Int.ceil (distance * 3)

/-- The fare as requestRide computes it from the distance alone (the
duration input is derived, not independently measured). -/
def requestRideFare (distance : ℚ) : Fare :=
  calculateFare distance ((rideDuration distance : ℤ) : ℚ)

/-! ## Great-circle distance (src/routes/rides.js lines 10-36)

The two input-shape guards of the source (non-array input, wrong arity)
return NaN; in the typed embedding a point is a pair
(longitude, latitude), so those guards are vacuous. -/

/-- JS `Math.atan2(y, x)`. -/
noncomputable def atan2 (y x : ℝ) : ℝ :=
  if 0 < x then Real.arctan (y / x)
  else if x < 0 ∧ 0 ≤ y then Real.arctan (y / x) + Real.pi
  else if x < 0 ∧ y < 0 then Real.arctan (y / x) - Real.pi
  else if x = 0 ∧ 0 < y then Real.pi / 2
  else if x = 0 ∧ y < 0 then -(Real.pi / 2)
  else 0

noncomputable def calculateDistance (point1 point2 : ℝ × ℝ) : ℝ :=
  let R : ℝ := 6371
  let dLat := (point2.2 - point1.2) * Real.pi / 180
  let dLon := (point2.1 - point1.1) * Real.pi / 180
  let a := Real.sin (dLat / 2) * Real.sin (dLat / 2) +
    Real.cos (point1.2 * Real.pi / 180) * Real.cos (point2.2 * Real.pi / 180) *
      Real.sin (dLon / 2) * Real.sin (dLon / 2)
  let c := 2 * atan2 (Real.sqrt a) (Real.sqrt (1 - a))
  R * c

/-! ## Concrete instances used by the claim theorems -/

def pendingNoDriverState : RideState :=
  { ride := some { rider := 1 }, avail := fun _ => true }

def c1Ride : Ride := { rider := 1, status := .pending }

def c1State : RideState := { ride := some c1Ride, avail := fun _ => true }

def c1StateW : RideState := { ride := some { rider := 1, status := .pending }, avail := fun _ => true }

def c5Ride : Ride := { rider := 1, driver := some 2, status := .accepted }

def c5State : RideState := { ride := some c5Ride, avail := fun _ => false }

def c6Rides : List RideRow := [{ id := 1, rider := 7, status := .pending, requestedAt := 0 }]

def c7Ride : Ride :=
  { rider := 1, driver := some 2, status := .completed,
    driverRating := some { rating := 4, comment := "good", createdAt := 50 } }

def c7State : RideState := { ride := some c7Ride, avail := fun _ => false }

def c2WalletA : Wallet := { userId := 1, userRole := "rider", balance := 100 }

def c2WalletB : Wallet := { userId := 2, userRole := "driver", balance := 0 }

def c2Bank : Bank := fun u => if u = 1 then some c2WalletA else if u = 2 then some c2WalletB else none

def c3Wallet0 : Wallet := { userId := 1, userRole := "rider" }

def c3w1 : Wallet :=
  ((depositRequest c3Wallet0 100 "mtn_momo" "670000000" "DEP_R1" true 10).toOption).getD c3Wallet0

def c3w2 : Wallet := ((campayWebhook c3w1 "DEP_R1" "SUCCESSFUL" 100 20).toOption).getD c3w1

def c3w3 : Wallet := ((campayWebhook c3w2 "DEP_R1" "SUCCESSFUL" 100 30).toOption).getD c3w2

def c4Tx : Tx :=
  { type := .deposit, amount := 100, status := .completed,
    description := "Deposit via mtn_momo",
    metadata := { paymentMethod := some "mtn_momo", externalReference := some "DEP_R2" },
    createdAt := 10, completedAt := some 20 }

def c4Wallet : Wallet :=
  { userId := 1, userRole := "rider", balance := 100, transactions := [c4Tx] }

def c9P1 : ℝ × ℝ := (11.5174, 3.848)

def c9P2 : ℝ × ℝ := (11.5274, 3.858)

/-- The `a` intermediate of `calculateDistance` at the two concrete points:
both half-angle deltas are `π/36000` (0.005 degrees) and the latitude
cosines are taken at 3.848 and 3.858 degrees. -/
noncomputable def c9A : ℝ :=
  Real.sin (Real.pi / 36000) * Real.sin (Real.pi / 36000) +
    Real.cos (3.848 * Real.pi / 180) * Real.cos (3.858 * Real.pi / 180) *
      Real.sin (Real.pi / 36000) * Real.sin (Real.pi / 36000)

/-! # Claims -/

/-- Claim C8 (confirmed): the fare computation is a pure deterministic
function of distance and duration, `total = 500 + distance * 200 +
duration * 10` (XAF), with the duration derived by requestRide as
`ceil(distance * 3)` minutes; in particular
`fare(distance = 2.5, duration = 15)` has total exactly 1150. -/
theorem fare_total_formula :
    (∀ d m : ℚ, (calculateFare d m).total = 500 + d * 200 + m * 10) ∧
    (∀ d : ℚ, (requestRideFare d).total = 500 + d * 200 + ((Int.ceil (d * 3) : ℤ) : ℚ) * 10) ∧
    (calculateFare (5/2) 15).total = 1150 ∧
    (calculateFare (5/2) 15).currency = "XAF" := by
  refine ⟨fun d m => rfl, fun d => rfl, by norm_num [calculateFare], rfl⟩

/-- Claim C10 (confirmed): on a ride with no driver assigned, both
`startRide` and `completeRide` dereference the absent driver field before
any status guard runs, so the call surfaces as a generic internal failure
(the thrown TypeError caught by the 500 handler) rather than the typed
status-conflict response, and the state is unchanged. -/
theorem startRide_completeRide_no_driver_crash (s : RideState) (r : Ride)
    (hr : s.ride = some r) (hd : r.driver = none) (c : UserId) (ok : Bool) (now : Nat) :
    startRide s c now = (.internalError, s) ∧
    completeRide s c ok now = (.internalError, s) := by
  constructor <;> simp [startRide, completeRide, hr, hd]

/-- Witness for `startRide_completeRide_no_driver_crash` at a concrete
pending ride without a driver. -/
theorem startRide_completeRide_no_driver_crash_witness :
    startRide pendingNoDriverState 2 5 = (.internalError, pendingNoDriverState) ∧
    completeRide pendingNoDriverState 2 true 5 = (.internalError, pendingNoDriverState) :=
  startRide_completeRide_no_driver_crash pendingNoDriverState { rider := 1 } rfl rfl 2 true 5

/-! ### Claim C1 — acceptRide race resolution -/

/-- Claim C1, counterexample: on a pending ride with two available drivers
racing (both status checks read `pending` before either write), BOTH
`acceptRide` calls succeed — it is false that exactly one succeeds while
the other receives the ride-no-longer-available failure.  The later write
silently overwrites the first driver assignment. -/
theorem acceptRide_race_both_succeed :
    (acceptRace c1State 2 3 0).1 = (.success, .success) ∧
    ((acceptRace c1State 2 3 0).2.ride.bind Ride.driver) = some 3 ∧
    ¬ (((acceptRace c1State 2 3 0).1.1 = .success ∧
        (acceptRace c1State 2 3 0).1.2 = .rideNotAvailable) ∨
       ((acceptRace c1State 2 3 0).1.1 = .rideNotAvailable ∧
        (acceptRace c1State 2 3 0).1.2 = .success)) := by
  refine ⟨rfl, rfl, ?_⟩
  decide

/-- Claim C1, amended: the status check and the write of `acceptRide` are
separate steps with no conditional atomic update.  When calls are
serialized, the first wins and a later call fails with the
ride-no-longer-available error; but when two calls interleave so that both
reads see `pending`, both return success and the later write's driver ends
up assigned. -/
theorem acceptRide_serial_wins_race_loses (s : RideState) (r : Ride) (d1 d2 : UserId)
    (now t2 : Nat) (hr : s.ride = some r) (hp : r.status = .pending)
    (h1 : s.avail d1 = true) (h2 : s.avail d2 = true) :
    ((acceptRide s d1 now).1 = .success ∧
     (acceptRide (acceptRide s d1 now).2 d2 t2).1 = .rideNotAvailable) ∧
    ((acceptRace s d1 d2 now).1 = (.success, .success) ∧
     ((acceptRace s d1 d2 now).2.ride.bind Ride.driver) = some d2) := by
  have hc1 : acceptCheck s d1 = .inr r := by
    simp [acceptCheck, hr, hp, h1]
  have hc2 : acceptCheck s d2 = .inr r := by
    simp [acceptCheck, hr, hp, h2]
  have e1 : acceptRide s d1 now = (.success, acceptWrite s r d1 now) := by
    rw [acceptRide, hc1]
  have er : acceptRace s d1 d2 now =
      ((.success, .success), acceptWrite (acceptWrite s r d1 now) r d2 now) := by
    rw [acceptRace, hc1, hc2]
  refine ⟨⟨?_, ?_⟩, ?_, ?_⟩
  · rw [e1]
  · rw [e1]
    simp [acceptRide, acceptCheck, acceptWrite, setRide, setAvail, Ride.updateStatus]
  · rw [er]
  · rw [er]
    simp [acceptWrite, setRide, setAvail, Ride.updateStatus]

/-- Witness for `acceptRide_serial_wins_race_loses` at a concrete pending
ride with two available drivers. -/
theorem acceptRide_serial_wins_race_loses_witness :
    ((acceptRide c1StateW 2 0).1 = .success ∧
     (acceptRide (acceptRide c1StateW 2 0).2 3 1).1 = .rideNotAvailable) ∧
    ((acceptRace c1StateW 2 3 0).1 = (.success, .success) ∧
     ((acceptRace c1StateW 2 3 0).2.ride.bind Ride.driver) = some 3) :=
  acceptRide_serial_wins_race_loses c1StateW { rider := 1, status := .pending } 2 3 0 1
    rfl rfl rfl rfl

/-! ### Claim C5 — cancellation and driver availability -/

/-- Claim C5, counterexample: the rider cancels an accepted ride that has a
driver assigned; the cancellation succeeds but the assigned driver is NOT
marked available again (the availability restore runs only in the
`if (isDriver)` branch of cancelRide). -/
theorem cancelRide_by_rider_leaves_driver_unavailable :
    (cancelRide c5State 1 none 9).1 = .success ∧
    ((cancelRide c5State 1 none 9).2.ride.map Ride.status) = some .cancelled ∧
    (cancelRide c5State 1 none 9).2.avail 2 = false := by
  refine ⟨rfl, rfl, ?_⟩
  decide

/-- Claim C5, amended: a successful cancel of a non-terminal ride sets
`cancelledAt` and `cancelledBy`; the assigned driver is marked available
again only when the canceller is the driver — a rider-initiated
cancellation leaves the driver's availability flags untouched (and the
route offers no system-initiated path: callers other than the rider and
the assigned driver are rejected). -/
theorem cancelRide_sets_fields_avail_only_for_driver (s : RideState) (r : Ride) (d : UserId)
    (reason : Option String) (now : Nat) (hr : s.ride = some r) (hd : r.driver = some d)
    (hnc : r.status ≠ .completed) (hncl : r.status ≠ .cancelled) (hdr : d ≠ r.rider) :
    ((cancelRide s r.rider reason now).1 = .success ∧
     ((cancelRide s r.rider reason now).2.ride.bind Ride.cancelledAt) = some now ∧
     ((cancelRide s r.rider reason now).2.ride.bind Ride.cancelledBy) = some "rider" ∧
     (cancelRide s r.rider reason now).2.avail = s.avail) ∧
    ((cancelRide s d reason now).1 = .success ∧
     ((cancelRide s d reason now).2.ride.bind Ride.cancelledAt) = some now ∧
     ((cancelRide s d reason now).2.ride.bind Ride.cancelledBy) = some "driver" ∧
     (cancelRide s d reason now).2.avail d = true) ∧
    (∀ u : UserId, u ≠ r.rider → r.driver ≠ some u →
      cancelRide s u reason now = (.notAuthorized, s)) := by
  have hdriver : r.driver ≠ some r.rider := by
    rw [hd]
    intro h
    exact hdr (Option.some.inj h)
  have hrd : r.rider ≠ d := hdr.symm
  constructor
  · have erider : cancelRide s r.rider reason now =
        (.success,
         setRide s { r.updateStatus .cancelled (some "rider") now with cancellationReason := reason }) := by
      simp [cancelRide, hr, hnc, hncl, hdriver]
    refine ⟨?_, ?_, ?_, ?_⟩ <;> rw [erider] <;> simp [setRide, Ride.updateStatus]
  constructor
  · have edriver : cancelRide s d reason now =
        (.success,
         setAvail
           (setRide s { r.updateStatus .cancelled (some "driver") now with cancellationReason := reason })
           d true) := by
      simp [cancelRide, hr, hd, hnc, hncl, hrd]
    refine ⟨?_, ?_, ?_, ?_⟩ <;> rw [edriver] <;> simp [setRide, setAvail, Ride.updateStatus]
  · intro u hu hdu
    have hru : r.rider ≠ u := hu.symm
    simp [cancelRide, hr, hru, hdu]

/-- Witness for `cancelRide_sets_fields_avail_only_for_driver` at a
concrete accepted ride (rider 1, driver 2). -/
theorem cancelRide_sets_fields_avail_only_for_driver_witness :
    ((cancelRide c5State 1 none 9).1 = .success ∧
     ((cancelRide c5State 1 none 9).2.ride.bind Ride.cancelledAt) = some 9 ∧
     ((cancelRide c5State 1 none 9).2.ride.bind Ride.cancelledBy) = some "rider" ∧
     (cancelRide c5State 1 none 9).2.avail = c5State.avail) ∧
    ((cancelRide c5State 2 none 9).1 = .success ∧
     ((cancelRide c5State 2 none 9).2.ride.bind Ride.cancelledAt) = some 9 ∧
     ((cancelRide c5State 2 none 9).2.ride.bind Ride.cancelledBy) = some "driver" ∧
     (cancelRide c5State 2 none 9).2.avail 2 = true) ∧
    (∀ u : UserId, u ≠ 1 → c5Ride.driver ≠ some u →
      cancelRide c5State u none 9 = (.notAuthorized, c5State)) := by
  have h := cancelRide_sets_fields_avail_only_for_driver c5State c5Ride 2 none 9
    rfl rfl (by decide) (by decide) (by decide)
  exact h

/-! ### Claim C6 — ride records and requestRide's cleanup -/

/-- Claim C6, counterexample: rider 7 has a pending (NOT cancelled) ride,
requested more than five minutes ago; a new `requestRide` call by the same
rider deletes that ride record before the active-ride check runs, then
creates the new ride — so `requestRide` does remove existing ride records
of the requesting rider. -/
theorem requestRide_removes_pending_ride :
    (c6Rides.any fun r => r.id = 1) = true ∧
    ((requestRideCore c6Rides 7 400000 99).2.any fun r => r.id = 1) = false ∧
    (requestRideCore c6Rides 7 400000 99).1 = .created 99 := by
  decide

/-- Claim C6, amended: `requestRide` deletes exactly the requesting rider's
own `pending` rides whose `requestedAt` is more than five minutes old
(`Ride.deleteMany` before the active-ride check); every other pre-existing
ride record survives the call. -/
theorem requestRideCore_deletes_exactly_old_pending (rides : List RideRow) (riderId : UserId)
    (now newId : Nat) (r : RideRow) (hmem : r ∈ rides) :
    r ∈ (requestRideCore rides riderId now newId).2 ↔ oldPendingOf riderId now r = false := by
  have hcleaned : r ∈ cleanupOldPending rides riderId now ↔ oldPendingOf riderId now r = false := by
    simp [cleanupOldPending, List.mem_filter, hmem]
  have hnewOld : oldPendingOf riderId now
      { id := newId, rider := riderId, status := .pending, requestedAt := now } = false := by
    simp [oldPendingOf]
  simp only [requestRideCore]
  split
  · simpa using hcleaned
  · simp only [List.mem_append, List.mem_singleton]
    constructor
    · rintro (h | h)
      · exact hcleaned.mp h
      · rw [h]
        exact hnewOld
    · intro h
      exact Or.inl (hcleaned.mpr h)

/-- Witness for `requestRideCore_deletes_exactly_old_pending`: an accepted
ride of the same rider survives the call (it is not old-pending), while
the old pending ride of `requestRide_removes_pending_ride`-style input is
characterised as removed. -/
theorem requestRideCore_deletes_exactly_old_pending_witness :
    ({ id := 4, rider := 7, status := .accepted, requestedAt := 0 } ∈
      (requestRideCore [{ id := 4, rider := 7, status := .accepted, requestedAt := 0 }] 7 400000 99).2 ↔
      oldPendingOf 7 400000 { id := 4, rider := 7, status := .accepted, requestedAt := 0 } = false) ∧
    ({ id := 1, rider := 7, status := .pending, requestedAt := 0 } ∈
      (requestRideCore c6Rides 7 400000 99).2 ↔
      oldPendingOf 7 400000 { id := 1, rider := 7, status := .pending, requestedAt := 0 } = false) :=
  ⟨requestRideCore_deletes_exactly_old_pending _ 7 400000 99 _ (by decide),
   requestRideCore_deletes_exactly_old_pending c6Rides 7 400000 99 _ (by decide)⟩

/-! ### Claim C7 — rating submission -/

/-- Claim C7, counterexample: the assigned driver already rated this
completed ride (rating 4); a second submission by the same driver succeeds
and OVERWRITES the stored rating with the new value — the at-most-once
requirement is not enforced. -/
theorem rateRide_overwrites_existing_rating :
    (rateRide c7State 2 2 (some "bad") "driver" 60).1 = .success ∧
    ((rateRide c7State 2 2 (some "bad") "driver" 60).2.ride.bind Ride.driverRating) =
      some { rating := 2, comment := "bad", createdAt := 60 } ∧
    c7Ride.driverRating = some { rating := 4, comment := "good", createdAt := 50 } := by
  decide

/-- Claim C7, amended: a rating submission succeeds only on a `completed`
ride and only by the matching rater (assigned driver for the driver-side
record, rider for the rider-side record), but it is NOT limited to one
submission per role: a successful submission stores the new rating
sub-record unconditionally, overwriting any existing one. -/
theorem rateRide_guards_and_overwrite (s : RideState) (r : Ride) (caller : UserId) (q : ℚ)
    (comment : Option String) (now : Nat) (hr : s.ride = some r)
    (hq1 : 1 ≤ q) (hq5 : q ≤ 5) :
    (r.status ≠ .completed → rateRide s caller q comment "driver" now = (.notCompleted, s)) ∧
    (r.status = .completed → r.driver ≠ some caller →
      rateRide s caller q comment "driver" now = (.notAuthorized, s)) ∧
    (r.status = .completed → r.driver = some caller →
      rateRide s caller q comment "driver" now =
        (.success, setRide s { r with driverRating := some (RatingRec.mk q (comment.getD "") now) })) ∧
    (r.status = .completed → r.rider = caller →
      rateRide s caller q comment "rider" now =
        (.success, setRide s { r with riderRating := some (RatingRec.mk q (comment.getD "") now) })) := by
  have hq : ¬ (q < 1 ∨ q > 5) := by
    push_neg
    exact ⟨hq1, hq5⟩
  refine ⟨fun hst => ?_, fun hst hnd => ?_, fun hst hdv => ?_, fun hst hrd => ?_⟩
  · simp [rateRide, hq, hr, hst]
  · simp [rateRide, hq, hr, hst, hnd]
  · simp [rateRide, hq, hr, hst, hdv]
  · simp [rateRide, hq, hr, hst, hrd]

/-- Witness for `rateRide_guards_and_overwrite` on the concrete completed
ride `c7Ride` (rider 1, driver 2): authorized driver submission overwrites,
an unrelated driver is rejected, the rider sets the rider-side record. -/
theorem rateRide_guards_and_overwrite_witness :
    rateRide c7State 2 2 (some "ok") "driver" 60 =
      (.success, setRide c7State { c7Ride with driverRating := some (RatingRec.mk 2 "ok" 60) }) ∧
    rateRide c7State 3 2 none "driver" 60 = (.notAuthorized, c7State) ∧
    rateRide c7State 1 2 none "rider" 60 =
      (.success, setRide c7State { c7Ride with riderRating := some (RatingRec.mk 2 "" 60) }) :=
  ⟨(rateRide_guards_and_overwrite c7State c7Ride 2 2 (some "ok") 60 rfl (by norm_num) (by norm_num)).2.2.1
      rfl rfl,
   (rateRide_guards_and_overwrite c7State c7Ride 3 2 none 60 rfl (by norm_num) (by norm_num)).2.1
      rfl (by decide),
   (rateRide_guards_and_overwrite c7State c7Ride 1 2 none 60 rfl (by norm_num) (by norm_num)).2.2.2
      rfl rfl⟩

/-! ### Claim C2 — atomicity of transferFunds -/

theorem updateBalance_debit_of_canWithdraw (w : Wallet) (amount : ℚ)
    (h : w.canWithdraw amount = true) :
    w.updateBalance amount .ride_payment = .ok { w with balance := w.balance - amount } := by
  have hge : w.balance ≥ amount := by
    simp [Wallet.canWithdraw] at h
    exact h.1
  simp [Wallet.updateBalance, hge]

theorem updateBalance_credit_transfer (w : Wallet) (amount : ℚ) :
    w.updateBalance amount .transfer = .ok { w with balance := w.balance + amount } := by
  simp [Wallet.updateBalance]

/-- Claim C2 (confirmed): `transferFunds` is all-or-nothing.  Both wallet
documents are loaded with the mongoose session attached, so every save of
the call — including the ones inside `updateBalance` — belongs to the
transaction: on any failure (insufficient balance before any mutation, or
a storage failure at any of the five writes, in particular after the debit
step) the session is aborted and the durable store is exactly the original
one; on success the source balance drops by the amount, the destination
balance rises by the amount, exactly one completed `transfer` record is
appended to each wallet, and no other wallet changes. -/
theorem transferFunds_all_or_nothing
    (bank : Bank) (fromUserId toUserId : UserId) (amount : ℚ) (rideId : Option Nat)
    (now : Nat) (failAt : Option Nat) (fw tw : Wallet)
    (hfw : bank fromUserId = some fw) (htw : bank toUserId = some tw)
    (hne : fromUserId ≠ toUserId) :
    transferAllOrNothingSpec bank fromUserId toUserId amount rideId now failAt fw tw := by
  by_cases hcw : fw.canWithdraw amount = true
  · have h1 : fw.updateBalance amount .ride_payment =
        .ok { fw with balance := fw.balance - amount } :=
      updateBalance_debit_of_canWithdraw fw amount hcw
    have h2 : tw.updateBalance amount .transfer =
        .ok { tw with balance := tw.balance + amount } :=
      updateBalance_credit_transfer tw amount
    have base : ∀ s : String,
        transferFunds bank fromUserId toUserId amount rideId now failAt = (.error s, bank) →
        transferAllOrNothingSpec bank fromUserId toUserId amount rideId now failAt fw tw := by
      intro s hT
      refine ⟨fun e _ => by rw [hT], fun p hp => ?_, fun hc => ?_⟩
      · rw [hT] at hp
        exact absurd hp (by simp)
      · rw [hc] at hcw
        exact absurd hcw (by simp)
    by_cases hf1 : failAt = some 1
    · exact base "save failed" (by simp [transferFunds, hfw, htw, hcw, h1, hf1])
    by_cases hf2 : failAt = some 2
    · exact base "save failed" (by simp [transferFunds, hfw, htw, hcw, h1, h2, hf1, hf2])
    by_cases hf345 : failAt = some 3 ∨ failAt = some 4 ∨ failAt = some 5
    · exact base "save failed" (by simp [transferFunds, hfw, htw, hcw, h1, h2, hf1, hf2, hf345])
    · have hT : transferFunds bank fromUserId toUserId amount rideId now failAt =
          (.ok (fw.balance - amount, tw.balance + amount),
           setWallet
             (setWallet bank fromUserId
               { fw with balance := fw.balance - amount,
                         transactions := fw.transactions ++
                           [transferFromTx tw toUserId amount rideId now] })
             toUserId
             { tw with balance := tw.balance + amount,
                       transactions := tw.transactions ++
                         [transferToTx fw fromUserId amount rideId now] }) := by
        simp [transferFunds, hfw, htw, hcw, h1, h2, hf1, hf2, hf345]
      refine ⟨fun e he => ?_, fun p hp => ?_, fun hc => ?_⟩
      · rw [hT] at he
        exact absurd he (by simp)
      · rw [hT] at hp
        refine ⟨by simpa using hp.symm, ?_, ?_, ?_⟩
        · exact ⟨transferFromTx tw toUserId amount rideId now, rfl, rfl, rfl, by
            rw [hT]
            simp [setWallet, hne]⟩
        · exact ⟨transferToTx fw fromUserId amount rideId now, rfl, rfl, rfl, by
            rw [hT]
            simp [setWallet]⟩
        · intro u hu1 hu2
          rw [hT]
          simp [setWallet, hu1, hu2]
      · rw [hc] at hcw
        exact absurd hcw (by simp)
  · have hcf : fw.canWithdraw amount = false := by
      cases hb : fw.canWithdraw amount
      · rfl
      · exact absurd hb hcw
    have hT : transferFunds bank fromUserId toUserId amount rideId now failAt =
        (.error "Insufficient balance or wallet inactive", bank) := by
      simp [transferFunds, hfw, htw, hcf]
    refine ⟨fun e _ => by rw [hT], fun p hp => ?_, fun _ => hT⟩
    rw [hT] at hp
    exact absurd hp (by simp)

/-- Witness for `transferFunds_all_or_nothing` at the concrete two-wallet
bank `c2Bank` (user 1 with balance 100, user 2 with balance 0, amount 50):
once with a storage failure injected after the debit step (`failAt = 2`,
the failure path of the claim) and once failure-free. -/
theorem transferFunds_all_or_nothing_witness :
    transferAllOrNothingSpec c2Bank 1 2 50 none 0 (some 2) c2WalletA c2WalletB ∧
    transferAllOrNothingSpec c2Bank 1 2 50 none 0 none c2WalletA c2WalletB :=
  ⟨transferFunds_all_or_nothing c2Bank 1 2 50 none 0 (some 2) c2WalletA c2WalletB
      rfl rfl (by decide),
   transferFunds_all_or_nothing c2Bank 1 2 50 none 0 none c2WalletA c2WalletB
      rfl rfl (by decide)⟩

/-! ### Claim C3 — the balance / ledger-sum invariant -/

/-- Claim C3: a deposit is initiated (pending entry, balance untouched) and
confirmed once by the gateway webhook — after which balance equals the
completed-credits-minus-completed-debits sum (100).  Delivering the same
confirmation a second time (a listed wallet operation) re-credits the
balance without any new completed entry: balance 200 against a ledger sum
of 100, violating the invariant. -/
theorem webhook_replay_breaks_ledger_invariant :
    (depositRequest c3Wallet0 100 "mtn_momo" "670000000" "DEP_R1" true 10).toOption = some c3w1 ∧
    (campayWebhook c3w1 "DEP_R1" "SUCCESSFUL" 100 20).toOption = some c3w2 ∧
    (campayWebhook c3w2 "DEP_R1" "SUCCESSFUL" 100 30).toOption = some c3w3 ∧
    c3w2.balance = specLedgerBalance c3w2 ∧
    c3w3.balance = 200 ∧
    specLedgerBalance c3w3 = 100 := by
  refine ⟨rfl, rfl, rfl, ?_, ?_, ?_⟩ <;>
    norm_num +decide [c3w1, c3w2, c3w3, c3Wallet0, depositRequest, campayWebhook, findTx,
      setFirstTx, txHasRef, Wallet.updateBalance, specLedgerBalance, txSpecCredit, txSpecDebit,
      Except.toOption, Option.getD]

/-! ### Claim C4 — webhook idempotency -/

/-- Claim C4, counterexample: the transaction referenced by the webhook is
already terminal (`completed`), yet replaying the identical `SUCCESSFUL`
confirmation is NOT a no-op: the wallet balance changes from 100 to 200
(the handler has no terminal-state guard and re-applies the credit). -/
theorem webhook_replay_not_noop :
    (campayWebhook c4Wallet "DEP_R2" "SUCCESSFUL" 100 30).toOption.map Wallet.balance = some 200 ∧
    c4Wallet.balance = 100 := by
  refine ⟨?_, rfl⟩
  norm_num +decide [campayWebhook, c4Wallet, c4Tx, findTx, setFirstTx, txHasRef,
    Wallet.updateBalance]

theorem setFirstTx_length (ref : String) (f : Tx → Tx) :
    ∀ l : List Tx, (setFirstTx ref f l).length = l.length := by
  intro l
  induction l with
  | nil => rfl
  | cons t ts ih =>
    by_cases h : txHasRef ref t
    · simp [setFirstTx, h]
    · simp [setFirstTx, h, ih]

/-- Claim C4, amended: replaying an identical webhook confirmation for a
deposit reference appends no duplicate log entry (the transaction list
keeps its length), but the balance change IS re-applied: the handler
credits the webhook amount again regardless of the transaction's current
(possibly terminal) status. -/
theorem webhook_replay_reapplies_balance (w : Wallet) (ref : String) (tx : Tx) (amt : ℚ)
    (now : Nat) (hfind : findTx ref w.transactions = some tx) (hdep : tx.type = .deposit) :
    (campayWebhook w ref "SUCCESSFUL" amt now).toOption.map Wallet.balance =
      some (w.balance + amt) ∧
    (campayWebhook w ref "SUCCESSFUL" amt now).toOption.map (fun x => x.transactions.length) =
      some w.transactions.length := by
  constructor <;>
    simp [campayWebhook, hfind, hdep, Wallet.updateBalance, setFirstTx_length, Except.toOption]

/-- Witness for `webhook_replay_reapplies_balance` at the concrete
already-completed deposit of `c4Wallet`. -/
theorem webhook_replay_reapplies_balance_witness :
    (campayWebhook c4Wallet "DEP_R2" "SUCCESSFUL" 100 40).toOption.map Wallet.balance =
      some (c4Wallet.balance + 100) ∧
    (campayWebhook c4Wallet "DEP_R2" "SUCCESSFUL" 100 40).toOption.map
      (fun x => x.transactions.length) = some c4Wallet.transactions.length :=
  webhook_replay_reapplies_balance c4Wallet "DEP_R2" c4Tx 100 40 (by decide) rfl

/-! ### Claim C9 — the haversine distance -/

theorem arctan_lt_self {x : ℝ} (hx : 0 < x) : Real.arctan x < x := by
  have h0 : 0 < Real.arctan x := by
    have h := Real.arctan_strictMono hx
    rwa [Real.arctan_zero] at h
  have h2 : Real.arctan x < Real.tan (Real.arctan x) :=
    Real.lt_tan h0 (Real.arctan_lt_pi_div_two x)
  rwa [Real.tan_arctan] at h2

theorem lt_arcsin_self {x : ℝ} (hx : 0 < x) (hx1 : x ≤ 1) : x < Real.arcsin x := by
  have h0 : 0 < Real.arcsin x := Real.arcsin_pos.mpr hx
  have h := Real.sin_lt h0
  rwa [Real.sin_arcsin (by linarith) hx1] at h

theorem arcsin_lt_div_sqrt {x : ℝ} (hx : 0 < x) (hx1 : x < 1) :
    Real.arcsin x < x / Real.sqrt (1 - x ^ 2) := by
  rw [Real.arcsin_eq_arctan (Set.mem_Ioo.mpr ⟨by linarith, hx1⟩)]
  apply arctan_lt_self
  have hs : (0:ℝ) < 1 - x ^ 2 := by nlinarith
  have := Real.sqrt_pos.mpr hs
  positivity

theorem c9_sin_pos : 0 < Real.sin (Real.pi / 36000) := by
  have h0 : (0:ℝ) < Real.pi / 36000 := by positivity
  have h1 : Real.pi / 36000 < Real.pi := by
    nlinarith [Real.pi_pos]
  exact Real.sin_pos_of_pos_of_lt_pi h0 h1

theorem c9_sin_ub : Real.sin (Real.pi / 36000) < (3.141593/36000 : ℝ) := by
  have h0 : (0:ℝ) < Real.pi / 36000 := by positivity
  have h1 := Real.sin_lt h0
  have h2 : Real.pi / 36000 < (3.141593/36000 : ℝ) := by
    linarith [Real.pi_lt_d6]
  linarith

theorem c9_sin_lb :
    (3.141592/36000 : ℝ) - ((3.141593/36000 : ℝ)) ^ 3 / 4 < Real.sin (Real.pi / 36000) := by
  have h0 : (0:ℝ) < Real.pi / 36000 := by positivity
  have hle1 : Real.pi / 36000 ≤ 1 := by
    linarith [Real.pi_lt_d6]
  have h1 := Real.sin_gt_sub_cube h0 hle1
  have h2 : (3.141592/36000 : ℝ) < Real.pi / 36000 := by
    linarith [Real.pi_gt_d6]
  have h3 : (Real.pi / 36000) ^ 3 < ((3.141593/36000 : ℝ)) ^ 3 := by
    have h4 : Real.pi / 36000 < (3.141593/36000 : ℝ) := by
      linarith [Real.pi_lt_d6]
    exact pow_lt_pow_left₀ h4 h0.le (by norm_num)
  linarith

theorem c9_cos1_lb :
    (1 : ℝ) - ((3.848 * 3.141593 / 180 : ℝ)) ^ 2 / 2 < Real.cos (3.848 * Real.pi / 180) := by
  have h0 : (0:ℝ) < 3.848 * Real.pi / 180 := by positivity
  have hb := Real.one_sub_sq_div_two_lt_cos (ne_of_gt h0)
  have h1 : (3.848 * Real.pi / 180 : ℝ) < 3.848 * 3.141593 / 180 := by
    linarith [Real.pi_lt_d6]
  have h2 : (3.848 * Real.pi / 180) ^ 2 < ((3.848 * 3.141593 / 180 : ℝ)) ^ 2 :=
    pow_lt_pow_left₀ h1 h0.le (by norm_num)
  linarith

theorem c9_cos2_lb :
    (1 : ℝ) - ((3.858 * 3.141593 / 180 : ℝ)) ^ 2 / 2 < Real.cos (3.858 * Real.pi / 180) := by
  have h0 : (0:ℝ) < 3.858 * Real.pi / 180 := by positivity
  have hb := Real.one_sub_sq_div_two_lt_cos (ne_of_gt h0)
  have h1 : (3.858 * Real.pi / 180 : ℝ) < 3.858 * 3.141593 / 180 := by
    linarith [Real.pi_lt_d6]
  have h2 : (3.858 * Real.pi / 180) ^ 2 < ((3.858 * 3.141593 / 180 : ℝ)) ^ 2 :=
    pow_lt_pow_left₀ h1 h0.le (by norm_num)
  linarith

theorem c9_cosprod_lb :
    ((1 : ℝ) - ((3.848 * 3.141593 / 180 : ℝ)) ^ 2 / 2) *
      ((1 : ℝ) - ((3.858 * 3.141593 / 180 : ℝ)) ^ 2 / 2) <
      Real.cos (3.848 * Real.pi / 180) * Real.cos (3.858 * Real.pi / 180) := by
  have h1 := c9_cos1_lb
  have h2 := c9_cos2_lb
  have p1 : (0:ℝ) < 1 - ((3.848 * 3.141593 / 180 : ℝ)) ^ 2 / 2 := by norm_num
  have p2 : (0:ℝ) < 1 - ((3.858 * 3.141593 / 180 : ℝ)) ^ 2 / 2 := by norm_num
  nlinarith [h1, h2, p1, p2]

theorem c9_cosprod_ub :
    Real.cos (3.848 * Real.pi / 180) * Real.cos (3.858 * Real.pi / 180) ≤ 1 := by
  have h1 := Real.cos_le_one (3.848 * Real.pi / 180)
  have h2 := Real.cos_le_one (3.858 * Real.pi / 180)
  have p1 : (0:ℝ) < Real.cos (3.848 * Real.pi / 180) := by
    linarith [c9_cos1_lb, show (0:ℝ) < 1 - ((3.848 * 3.141593 / 180 : ℝ)) ^ 2 / 2 by norm_num]
  have p2 : (0:ℝ) < Real.cos (3.858 * Real.pi / 180) := by
    linarith [c9_cos2_lb, show (0:ℝ) < 1 - ((3.858 * 3.141593 / 180 : ℝ)) ^ 2 / 2 by norm_num]
  nlinarith [h1, h2, p1, p2]

theorem c9A_lb : ((1232/10^7 : ℝ)) ^ 2 < c9A := by
  have hs : ((3.141592/36000 : ℝ) - ((3.141593/36000 : ℝ)) ^ 3 / 4) *
      ((3.141592/36000 : ℝ) - ((3.141593/36000 : ℝ)) ^ 3 / 4) <
      Real.sin (Real.pi / 36000) * Real.sin (Real.pi / 36000) :=
    mul_self_lt_mul_self (by norm_num) c9_sin_lb
  have hc := c9_cosprod_lb
  have hcpos : (0:ℝ) <
      ((1 : ℝ) - ((3.848 * 3.141593 / 180 : ℝ)) ^ 2 / 2) *
        ((1 : ℝ) - ((3.858 * 3.141593 / 180 : ℝ)) ^ 2 / 2) := by norm_num
  have hspos : (0:ℝ) <
      ((3.141592/36000 : ℝ) - ((3.141593/36000 : ℝ)) ^ 3 / 4) *
      ((3.141592/36000 : ℝ) - ((3.141593/36000 : ℝ)) ^ 3 / 4) := by norm_num
  have hnum : ((1232/10^7 : ℝ)) ^ 2 <
      ((3.141592/36000 : ℝ) - ((3.141593/36000 : ℝ)) ^ 3 / 4) *
        ((3.141592/36000 : ℝ) - ((3.141593/36000 : ℝ)) ^ 3 / 4) *
      (1 + ((1 : ℝ) - ((3.848 * 3.141593 / 180 : ℝ)) ^ 2 / 2) *
        ((1 : ℝ) - ((3.858 * 3.141593 / 180 : ℝ)) ^ 2 / 2)) := by norm_num
  show ((1232/10^7 : ℝ)) ^ 2 < Real.sin (Real.pi / 36000) * Real.sin (Real.pi / 36000) +
    Real.cos (3.848 * Real.pi / 180) * Real.cos (3.858 * Real.pi / 180) *
      Real.sin (Real.pi / 36000) * Real.sin (Real.pi / 36000)
  nlinarith [hs, hc, hcpos, hspos, hnum]

theorem c9A_ub : c9A < ((1235/10^7 : ℝ)) ^ 2 := by
  have hs : Real.sin (Real.pi / 36000) * Real.sin (Real.pi / 36000) <
      ((3.141593/36000 : ℝ)) * ((3.141593/36000 : ℝ)) :=
    mul_self_lt_mul_self c9_sin_pos.le c9_sin_ub
  have hc := c9_cosprod_ub
  have hspos : (0:ℝ) < Real.sin (Real.pi / 36000) * Real.sin (Real.pi / 36000) := by
    nlinarith [c9_sin_pos]
  have hnum : 2 * (((3.141593/36000 : ℝ)) * ((3.141593/36000 : ℝ))) < ((1235/10^7 : ℝ)) ^ 2 := by
    norm_num
  show Real.sin (Real.pi / 36000) * Real.sin (Real.pi / 36000) +
    Real.cos (3.848 * Real.pi / 180) * Real.cos (3.858 * Real.pi / 180) *
      Real.sin (Real.pi / 36000) * Real.sin (Real.pi / 36000) < ((1235/10^7 : ℝ)) ^ 2
  nlinarith [hs, hc, hspos]

theorem c9A_pos : 0 < c9A := by
  linarith [c9A_lb, show (0:ℝ) < ((1232/10^7 : ℝ)) ^ 2 by norm_num]

theorem c9A_lt_one : c9A < 1 := by
  linarith [c9A_ub, show ((1235/10^7 : ℝ)) ^ 2 < 1 by norm_num]

theorem c9_dist_eq : calculateDistance c9P1 c9P2 =
    6371 * (2 * atan2 (Real.sqrt c9A) (Real.sqrt (1 - c9A))) := by
  have e1 : ((3.858:ℝ) - 3.848) * Real.pi / 180 / 2 = Real.pi / 36000 := by
    rw [show ((3.858:ℝ) - 3.848) = 1/100 by norm_num]
    ring
  have e2 : ((11.5274:ℝ) - 11.5174) * Real.pi / 180 / 2 = Real.pi / 36000 := by
    rw [show ((11.5274:ℝ) - 11.5174) = 1/100 by norm_num]
    ring
  simp only [calculateDistance, c9P1, c9P2, c9A, e1, e2]

theorem c9_sqrtA_lt_one : Real.sqrt c9A < 1 := by
  rw [show (1:ℝ) = Real.sqrt 1 from Real.sqrt_one.symm]
  exact Real.sqrt_lt_sqrt c9A_pos.le c9A_lt_one

theorem c9_dist_arcsin :
    calculateDistance c9P1 c9P2 = 12742 * Real.arcsin (Real.sqrt c9A) := by
  rw [c9_dist_eq]
  have h1a : (0:ℝ) < 1 - c9A := by linarith [c9A_lt_one]
  have hx : (0:ℝ) < Real.sqrt (1 - c9A) := Real.sqrt_pos.mpr h1a
  rw [atan2, if_pos hx]
  have ht0 : (0:ℝ) ≤ Real.sqrt c9A := Real.sqrt_nonneg _
  have harcsin : Real.arcsin (Real.sqrt c9A) =
      Real.arctan (Real.sqrt c9A / Real.sqrt (1 - (Real.sqrt c9A) ^ 2)) :=
    Real.arcsin_eq_arctan (Set.mem_Ioo.mpr ⟨by linarith, c9_sqrtA_lt_one⟩)
  rw [Real.sq_sqrt c9A_pos.le] at harcsin
  rw [harcsin]
  ring

theorem c9_dist_lb : (15698144/10^7 : ℝ) < calculateDistance c9P1 c9P2 := by
  rw [c9_dist_arcsin]
  have h1 : (1232/10^7 : ℝ) < Real.sqrt c9A := (Real.lt_sqrt (by norm_num)).mpr c9A_lb
  have h2 : Real.sqrt c9A < Real.arcsin (Real.sqrt c9A) :=
    lt_arcsin_self (Real.sqrt_pos.mpr c9A_pos) c9_sqrtA_lt_one.le
  linarith

theorem c9_dist_ub : calculateDistance c9P1 c9P2 < (15736528/10^7 : ℝ) := by
  rw [c9_dist_arcsin]
  have h1a : (0:ℝ) < 1 - c9A := by linarith [c9A_lt_one]
  have hu1 : Real.sqrt c9A < (1235/10^7 : ℝ) := (Real.sqrt_lt' (by norm_num)).mpr c9A_ub
  have hs0 : (99999/10^5 : ℝ) < Real.sqrt (1 - c9A) := by
    rw [Real.lt_sqrt (by norm_num)]
    nlinarith [c9A_ub]
  have harc := arcsin_lt_div_sqrt (Real.sqrt_pos.mpr c9A_pos) c9_sqrtA_lt_one
  rw [Real.sq_sqrt c9A_pos.le] at harc
  have hdiv : Real.sqrt c9A / Real.sqrt (1 - c9A) < (1235/10^7 : ℝ) / (99999/10^5 : ℝ) := by
    rw [div_lt_div_iff₀ (Real.sqrt_pos.mpr h1a) (by norm_num)]
    nlinarith [hu1, hs0, Real.sqrt_nonneg c9A, Real.sqrt_nonneg (1 - c9A)]
  have hq : 12742 * ((1235/10^7 : ℝ) / (99999/10^5 : ℝ)) < (15736528/10^7 : ℝ) := by
    norm_num
  nlinarith [harc, hdiv, hq]

/-- Claim C9, counterexample: the code does use the haversine formula with
Earth radius 6371 km and [longitude, latitude] inputs, but the distance it
computes between (11.5174, 3.848) and (11.5274, 3.858) exceeds 1.5698 km,
so it is NOT approximately 1.48 km within a 1% tolerance. -/
theorem haversine_not_within_1pc_of_1_48 :
    ¬ (|calculateDistance c9P1 c9P2 - 1.48| ≤ 1.48 / 100) := by
  intro h
  have h2 := (abs_le.mp h).2
  have h3 := c9_dist_lb
  norm_num at h2 h3
  linarith

/-- Claim C9, amended: the haversine great-circle distance computed by the
code between (11.5174, 3.848) and (11.5274, 3.858) is approximately
1.571 km, within 1% tolerance (the proved enclosure is
(1.5698144, 1.5736528)). -/
theorem haversine_within_1pc_of_1_571 :
    |calculateDistance c9P1 c9P2 - 1.571| ≤ 1.571 / 100 := by
  rw [abs_le]
  constructor
  · linarith [c9_dist_lb]
  · linarith [c9_dist_ub]
